import Mathlib

/-!
# sfinae: the capability probe `has_funcA` and the gated dispatcher `call`

A shallow embedding of `sample.cpp`.

The program is template code: its inputs are *types*.  A candidate type is
modelled by the part of a C++ struct that the program inspects: its public
member functions (name, how many arguments a call has to supply, and the lines
its body writes to `std::cout`, or no body when the function is declared but
never defined) and, optionally, a base struct it derives from publicly.

Building an instantiation either fails (`Except.error`, a compile-time or
link-time rejection) or yields the trace of events the built code performs
when run (`Except.ok`).

Scope of the type model: public, non-template member functions whose bodies
write lines to `std::cout`, overloading by parameter list, default arguments
(through `arity`), and single public inheritance with name hiding.  Access
control, data members, member templates, cv- and ref-qualifiers and multiple
inheritance are not represented.

The C++ rules the embedding relies on:
* `&X::funcA` without a target type is well-formed only when `funcA` names one
  single function; for an unknown name or an overload set the substitution
  fails and `test(X*)` drops out of the candidates (SFINAE);
* a pointer parameter is a better match than an ellipsis;
* an ill-formed statement in the body of a selected function template is a
  hard error, and so is a call to a function that is never defined.

The comments of the source (lines 24, 60, 78) say that the probe and the two
overloads of `call` decide on whether `funcA` exists in `T`.  The second rule
makes the code miss that for an overloaded `funcA`: the name exists, and the
verdict is false.  The theorems of P1, inheritance, tie-break and P5 below
evaluate the code at such types.
-/

namespace Sfinae

/-! ## Candidate types -/

/-- A public member function of a struct.  `arity` is the number of arguments
a call must supply (parameters without a default argument); `body` is the
list of lines the function writes to `std::cout`, `none` when the function is
declared but has no definition. -/
structure Method where
  name : String
  arity : Nat
  body : Option (List String)
deriving DecidableEq

/-- A candidate type: a struct with its own member functions, possibly derived
from one base struct. -/
inductive Struct where
  | plain (members : List Method)
  | derived (members : List Method) (base : Struct)
deriving DecidableEq

/-- The declarations named `n` among the members `ms`. -/
def declared (ms : List Method) (n : String) : List Method :=
  ms.filter (fun m => m.name == n)

/-- Class member name lookup of `T::n`: the declarations of `n` in the struct
itself, which hide those of the base; the base is searched only when the
struct declares none. -/
def Struct.lookup : Struct → String → List Method
  | .plain ms, n => declared ms n
  | .derived ms base, n =>
    match declared ms n with
    | [] => base.lookup n
    | d :: ds => d :: ds

/-- The expression `&X::n` with no target type: well-formed exactly when the
name denotes one single function; an unknown name and an overload set are
both ill-formed. -/
def Struct.addressOf (X : Struct) (n : String) : Option Method :=
  match X.lookup n with
  | [m] => some m
  | _ => none

/-- Overload resolution of the call `x.n()` with no arguments: the candidates
are the declarations found by lookup that accept zero arguments; the call is
well-formed when exactly one remains. -/
def Struct.resolve (T : Struct) (n : String) : Option Method :=
  match (T.lookup n).filter (fun m => m.arity == 0) with
  | [m] => some m
  | _ => none

/-- `struct A`, lines 4-8. -/
def A : Struct := .plain [⟨"funcA", 0, some ["funcA called"]⟩]

/-- `struct B`, lines 10-14. -/
def B : Struct := .plain [⟨"funcB", 0, some ["funcB called"]⟩]

/-- `struct C`, lines 17-21. -/
def C : Struct := .plain [⟨"funcC", 0, some ["funcC called"]⟩]

/-! ## Build results and run traces -/

/-- What the built code does when run. -/
inductive Event where
  | print (line : String)
  | invoke (fn : String)
deriving DecidableEq

/-- The lines written to standard output by a trace. -/
def stdout : List Event → List String
  | [] => []
  | .print l :: es => l :: stdout es
  | .invoke _ :: es => stdout es

/-- The member functions entered by a trace. -/
def invoked : List Event → List String
  | [] => []
  | .print _ :: es => invoked es
  | .invoke f :: es => f :: invoked es

/-- Why a build is rejected. -/
inductive BuildError where
  | noMember (n : String)
  | noMatchingCall (n : String)
  | ambiguousCall (n : String)
  | undefinedReference (n : String)
  | undeclared (x : String)
deriving DecidableEq

/-- The statement `x.n();` for `x` of type `T`: rejected when `T` has no
member `n`, when no or several declarations accept zero arguments, and at link
time when the chosen function has no definition; otherwise the function is
entered and writes its lines. -/
def memberCall (T : Struct) (n : String) : Except BuildError (List Event) :=
  match T.lookup n with
  | [] => .error (.noMember n)
  | d :: ds =>
    match (d :: ds).filter (fun m => m.arity == 0) with
    | [] => .error (.noMatchingCall n)
    | [m] =>
      match m.body with
      | none => .error (.undefinedReference n)
      | some lines => .ok (.invoke n :: lines.map .print)
    | _ :: _ :: _ => .error (.ambiguousCall n)

/-! ## The probe `has_funcA`, lines 25-54 -/

namespace has_funcA

/-- The two declarations of `test`: `test(X*)` (line 43-44) and `test(...)`
(line 45).  Neither has a definition. -/
inductive Stub where
  | test_X
  | test_ellipsis
deriving DecidableEq

/-- The `::value` of the return type of a stub: `std::true_type` for
`test(X*)`, `std::false_type` for `test(...)`. -/
def Stub.returns : Stub → Bool
  | .test_X => true
  | .test_ellipsis => false

/-- The viable candidates for `test((T*)nullptr)`: `test(X*)` takes part only
when its default template argument `(&X::funcA, 0)` is well-formed for
`X = T`; `test(...)` always does. -/
def viable (T : Struct) : List Stub :=
  (match T.addressOf "funcA" with
   | some _ => [Stub.test_X]
   | none => []) ++ [Stub.test_ellipsis]

/-- Overload resolution of `test((T*)nullptr)`: the pointer parameter is an
exact match and beats the ellipsis whenever it is viable. -/
def test (T : Struct) : Stub :=
  if Stub.test_X ∈ viable T then Stub.test_X else Stub.test_ellipsis

/-- The constant `has_funcA<T>::value`, line 53. -/
def value (T : Struct) : Bool := (test T).returns

end has_funcA

/-! ## The dispatcher `call`, lines 71-84 -/

/-- The two function templates named `call`. -/
inductive Overload where
  | funcA_exists
  | funcA_missing
deriving DecidableEq

/-- The `enable_if_t` condition of each overload (lines 71 and 79). -/
def Overload.enabled : Overload → Struct → Bool
  | .funcA_exists, T => has_funcA.value T
  | .funcA_missing, T => !has_funcA.value T

/-- The overloads of `call` that survive substitution for the type `T`. -/
def viableCalls (T : Struct) : List Overload :=
  [Overload.funcA_exists, Overload.funcA_missing].filter (fun o => o.enabled T)

/-- The body of each overload, instantiated for `T` (lines 73-76, 81-84). -/
def Overload.body : Overload → Struct → Except BuildError (List Event)
  | .funcA_exists, T =>
    match memberCall T "funcA" with
    | .error e => .error e
    | .ok t => .ok (.print "funcA exists" :: t)
  | .funcA_missing, T =>
    match memberCall T "funcB" with
    | .error e => .error e
    | .ok t => .ok (t ++ [.print "funcA does not exist"])

/-- The call expression `call(x)` for `x` of type `T`: the single viable
overload is chosen and its body instantiated. -/
def call (T : Struct) : Except BuildError (List Event) :=
  match viableCalls T with
  | [] => .error (.noMatchingCall "call")
  | [o] => o.body T
  | _ :: _ :: _ => .error (.ambiguousCall "call")

/-! ## The entry routine `main`, lines 86-93 -/

/-- The statements that occur in `main`. -/
inductive Stmt where
  | declare (T : Struct) (x : String)
  | callOn (x : String)
deriving DecidableEq

/-- The type of the variable `x` among the declarations made so far. -/
def typeOf : List (String × Struct) → String → Option Struct
  | [], _ => none
  | (y, T) :: env, x => if y == x then some T else typeOf env x

/-- Build a statement sequence: every `call(x)` is instantiated at the declared
type of `x`, and the traces are concatenated in program order. -/
def build : List (String × Struct) → List Stmt → Except BuildError (List Event)
  | _, [] => .ok []
  | env, .declare T x :: rest => build ((x, T) :: env) rest
  | env, .callOn x :: rest =>
    match typeOf env x with
    | none => .error (.undeclared x)
    | some T =>
      match call T with
      | .error e => .error e
      | .ok t =>
        match build env rest with
        | .error e => .error e
        | .ok ts => .ok (t ++ ts)

/-- The body of `main`: lines 87-91 (line 92 is a comment). -/
def mainBody : List Stmt :=
  [.declare A "a", .declare B "b", .declare C "c", .callOn "a", .callOn "b"]

/-- A finished run: what was written and the exit status. -/
structure Run where
  trace : List Event
  exitCode : Nat
deriving DecidableEq

/-- The program: `main` has no return statement, so a built program exits
with status 0 after its statements. -/
def main : Except BuildError Run :=
  match build [] mainBody with
  | .error e => .error e
  | .ok t => .ok ⟨t, 0⟩

/-! ## Inputs used in the checks below -/

/-- A struct whose `funcA` is overloaded: `void funcA()` and `void funcA(int)`,
and nothing else. -/
def overloadedA : Struct :=
  .plain [⟨"funcA", 0, some ["funcA called"]⟩, ⟨"funcA", 1, some []⟩]

/-- A struct whose only member is `void funcA(int)`. -/
def needsArgA : Struct := .plain [⟨"funcA", 1, some []⟩]

/-- A struct with `void funcA(int)` and `void funcB()`. -/
def needsArgA_withB : Struct :=
  .plain [⟨"funcA", 1, some []⟩, ⟨"funcB", 0, some ["funcB called"]⟩]

/-- A struct with a sole `void funcA()` and a `void funcB()`. -/
def bothAB : Struct :=
  .plain [⟨"funcA", 0, some ["funcA called"]⟩, ⟨"funcB", 0, some ["funcB called"]⟩]

/-- A struct with the overloads `funcA()` and `funcA(int)`, and a `funcB()`. -/
def overloadedA_withB : Struct :=
  .plain [⟨"funcA", 0, some ["funcA called"]⟩, ⟨"funcA", 1, some []⟩,
          ⟨"funcB", 0, some ["funcB called"]⟩]

/-- A struct declaring only `funcC`, derived from `overloadedA`. -/
def derivedFromOverloaded : Struct :=
  .derived [⟨"funcC", 0, some ["funcC called"]⟩] overloadedA

/-- A struct whose `funcA()` is declared and never defined. -/
def undefinedA : Struct := .plain [⟨"funcA", 0, none⟩]

/-- A struct whose overloads `funcA()` and `funcA(int)` are both declared and
never defined. -/
def undefinedOverloadedA : Struct := .plain [⟨"funcA", 0, none⟩, ⟨"funcA", 1, none⟩]

/-- Strip the definition from a member function, keeping its declaration. -/
def Method.undefine (m : Method) : Method := { m with body := none }

/-- The same struct with every member function declared only. -/
def Struct.undefine : Struct → Struct
  | .plain ms => .plain (ms.map Method.undefine)
  | .derived ms base => .derived (ms.map Method.undefine) base.undefine

/-- The types of the values a statement sequence constructs, in order. -/
def constructed : List Stmt → List Struct
  | [] => []
  | .declare T _ :: rest => T :: constructed rest
  | .callOn _ :: rest => constructed rest

/-- The types at which `call` is instantiated by a statement sequence, in
order (`none` for an undeclared variable). -/
def instantiated : List (String × Struct) → List Stmt → List (Option Struct)
  | _, [] => []
  | env, .declare T x :: rest => instantiated ((x, T) :: env) rest
  | env, .callOn x :: rest => typeOf env x :: instantiated env rest

/-- The variables handed to `call`, in order. -/
def dispatched : List Stmt → List String
  | [] => []
  | .declare _ _ :: rest => dispatched rest
  | .callOn x :: rest => x :: dispatched rest

/-! ## General facts about the embedding -/

theorem stdout_map_print (ls : List String) : stdout (ls.map Event.print) = ls := by
  induction ls with
  | nil => rfl
  | cons l ls ih => simp [stdout, ih]

theorem invoked_map_print (ls : List String) : invoked (ls.map Event.print) = [] := by
  induction ls with
  | nil => rfl
  | cons l ls ih => simp [invoked, ih]

theorem stdout_append (s t : List Event) : stdout (s ++ t) = stdout s ++ stdout t := by
  induction s with
  | nil => rfl
  | cons e s ih => cases e <;> simp [stdout, ih]

theorem invoked_append (s t : List Event) : invoked (s ++ t) = invoked s ++ invoked t := by
  induction s with
  | nil => rfl
  | cons e s ih => cases e <;> simp [invoked, ih]

/-- The verdict is true exactly when `funcA` names one single declaration. -/
theorem has_funcA.value_eq_true_iff (T : Struct) :
    has_funcA.value T = true ↔ ∃ m, T.lookup "funcA" = [m] := by
  unfold has_funcA.value has_funcA.test has_funcA.viable Struct.addressOf
  cases h : T.lookup "funcA" with
  | nil => simp [has_funcA.Stub.returns]
  | cons a l =>
    cases l with
    | nil => simp [has_funcA.Stub.returns]
    | cons b l => simp [has_funcA.Stub.returns]

theorem has_funcA.value_eq_false_iff (T : Struct) :
    has_funcA.value T = false ↔ T.addressOf "funcA" = none := by
  unfold has_funcA.value has_funcA.test has_funcA.viable
  cases h : T.addressOf "funcA" <;> simp [has_funcA.Stub.returns]

theorem addressOf_eq_none_iff (T : Struct) (n : String) :
    T.addressOf n = none ↔ ¬ ∃ m, T.lookup n = [m] := by
  unfold Struct.addressOf
  cases h : T.lookup n with
  | nil => simp
  | cons a l => cases l <;> simp

theorem viableCalls_of_true (T : Struct) (h : has_funcA.value T = true) :
    viableCalls T = [Overload.funcA_exists] := by
  simp [viableCalls, Overload.enabled, h]

theorem viableCalls_of_false (T : Struct) (h : has_funcA.value T = false) :
    viableCalls T = [Overload.funcA_missing] := by
  simp [viableCalls, Overload.enabled, h]

theorem call_of_true (T : Struct) (h : has_funcA.value T = true) :
    call T = Overload.funcA_exists.body T := by
  simp [call, viableCalls_of_true T h]

theorem call_of_false (T : Struct) (h : has_funcA.value T = false) :
    call T = Overload.funcA_missing.body T := by
  simp [call, viableCalls_of_false T h]

/-- A call `x.n()` that resolves to a defined function builds. -/
theorem memberCall_of_resolve (T : Struct) (n : String) (m : Method) (out : List String)
    (hr : T.resolve n = some m) (hb : m.body = some out) :
    memberCall T n = .ok (.invoke n :: out.map .print) := by
  unfold Struct.resolve at hr
  unfold memberCall
  cases hl : T.lookup n with
  | nil => simp [hl] at hr
  | cons d ds =>
    rw [hl] at hr
    cases hf : List.filter (fun m => m.arity == 0) (d :: ds) with
    | nil => simp [hf] at hr
    | cons a l =>
      cases l with
      | nil =>
        rw [hf] at hr
        simp at hr
        subst hr
        simp only [hf, hb]
      | cons b l => simp [hf] at hr

/-- A call `x.n()` that does not resolve is rejected. -/
theorem memberCall_of_not_resolve (T : Struct) (n : String) (hr : T.resolve n = none) :
    ∃ e, memberCall T n = .error e := by
  unfold Struct.resolve at hr
  unfold memberCall
  cases hl : T.lookup n with
  | nil => exact ⟨_, rfl⟩
  | cons d ds =>
    rw [hl] at hr
    cases hf : List.filter (fun m => m.arity == 0) (d :: ds) with
    | nil => simp only [hf]; exact ⟨_, rfl⟩
    | cons a l =>
      cases l with
      | nil => simp [hf] at hr
      | cons b l => simp only [hf]; exact ⟨_, rfl⟩

/-- A call `x.n()` that builds resolves to a defined function, enters it and
writes exactly its lines. -/
theorem memberCall_ok (T : Struct) (n : String) (t : List Event)
    (h : memberCall T n = .ok t) :
    ∃ (m : Method) (out : List String),
      T.resolve n = some m ∧ m.body = some out ∧ t = .invoke n :: out.map .print := by
  unfold memberCall at h
  unfold Struct.resolve
  cases hl : T.lookup n with
  | nil => simp [hl] at h
  | cons d ds =>
    simp only [hl] at h
    cases hf : List.filter (fun m => m.arity == 0) (d :: ds) with
    | nil => simp [hf] at h
    | cons a l =>
      cases l with
      | nil =>
        simp only [hf] at h
        cases hb : a.body with
        | none => simp [hb] at h
        | some lines =>
          simp only [hb, Except.ok.injEq] at h
          exact ⟨a, lines, rfl, hb, h.symm⟩
      | cons b l => simp [hf] at h

theorem resolve_of_single (T : Struct) (n : String) (m : Method)
    (hl : T.lookup n = [m]) (h0 : m.arity = 0) : T.resolve n = some m := by
  simp [Struct.resolve, hl, h0]

theorem declared_undefine (ms : List Method) (n : String) :
    declared (ms.map Method.undefine) n = (declared ms n).map Method.undefine := by
  induction ms with
  | nil => rfl
  | cons m ms ih =>
    simp only [declared, List.map_cons, List.filter_cons] at ih ⊢
    by_cases hm : m.name = n <;> simp [Method.undefine, hm, ih]

theorem lookup_undefine (T : Struct) (n : String) :
    T.undefine.lookup n = (T.lookup n).map Method.undefine := by
  induction T with
  | plain ms => simp [Struct.undefine, Struct.lookup, declared_undefine]
  | derived ms base ih =>
    simp only [Struct.undefine, Struct.lookup, declared_undefine]
    cases h : declared ms n with
    | nil => simpa using ih
    | cons d ds => simp

/-- The first overload at work: a single defined zero-argument `funcA`. -/
theorem call_single_funcA (T : Struct) (m : Method) (out : List String)
    (hl : T.lookup "funcA" = [m]) (h0 : m.arity = 0) (hb : m.body = some out) :
    call T = .ok (.print "funcA exists" :: .invoke "funcA" :: out.map .print) := by
  have hv : has_funcA.value T = true := (has_funcA.value_eq_true_iff T).2 ⟨m, hl⟩
  have hm := memberCall_of_resolve T "funcA" m out (resolve_of_single T "funcA" m hl h0) hb
  rw [call_of_true T hv]
  simp only [Overload.body, hm]

/-- The second overload at work: no single `funcA`, a defined zero-argument
`funcB`. -/
theorem call_fallback (T : Struct) (m : Method) (out : List String)
    (hB : T.resolve "funcB" = some m) (hb : m.body = some out)
    (hS : T.addressOf "funcA" = none) :
    call T = .ok (.invoke "funcB" :: out.map .print ++ [.print "funcA does not exist"]) := by
  have hv : has_funcA.value T = false := (has_funcA.value_eq_false_iff T).2 hS
  have hm := memberCall_of_resolve T "funcB" m out hB hb
  rw [call_of_false T hv]
  simp only [Overload.body, hm]

/-! ## P1: the `funcA exists` branch -/

/-- C1: the code breaks the claim at `overloadedA`.  The struct exposes a
zero-argument `funcA` (the call `x.funcA()` resolves to it, and it is
defined), so `call` should build and write `funcA exists`, `funcA called`;
the probe answers false for it, the second overload is the one selected, and
`call` is rejected because that overload asks for `funcB`. -/
theorem C1_overloaded_funcA_rejected :
    overloadedA.resolve "funcA" = some ⟨"funcA", 0, some ["funcA called"]⟩ ∧
    has_funcA.value overloadedA = false ∧
    viableCalls overloadedA = [Overload.funcA_missing] ∧
    call overloadedA = .error (.noMember "funcB") ∧
    ¬ ∃ t, call overloadedA = .ok t := by
  refine ⟨rfl, rfl, rfl, rfl, ?_⟩
  rintro ⟨t, ht⟩
  rw [show call overloadedA = .error (.noMember "funcB") from rfl] at ht
  cases ht

/-- Where `funcA` names one single member function of `T`, callable with no
argument and defined, `call` builds, writes `funcA exists` and then the lines
of `funcA`, and enters `funcA` only, never `funcB`. -/
theorem funcA_exists_branch (T : Struct) (m : Method) (out : List String)
    (hl : T.lookup "funcA" = [m]) (h0 : m.arity = 0) (hb : m.body = some out) :
    ∃ t, call T = .ok t ∧
      t = .print "funcA exists" :: .invoke "funcA" :: out.map .print ∧
      stdout t = "funcA exists" :: out ∧
      invoked t = ["funcA"] ∧ "funcB" ∉ invoked t := by
  refine ⟨_, call_single_funcA T m out hl h0 hb, rfl, ?_, ?_, ?_⟩
  · simp [stdout, stdout_map_print]
  · simp [invoked, invoked_map_print]
  · simp [invoked, invoked_map_print]

/-- Type `A` gives `funcA exists`, `funcA called`. -/
theorem funcA_exists_branch_at_A :
    A.lookup "funcA" = [⟨"funcA", 0, some ["funcA called"]⟩] ∧
    ∃ t, call A = .ok t ∧
      t = .print "funcA exists" :: .invoke "funcA" :: ["funcA called"].map .print ∧
      stdout t = "funcA exists" :: ["funcA called"] ∧
      invoked t = ["funcA"] ∧ "funcB" ∉ invoked t :=
  ⟨rfl, funcA_exists_branch A ⟨"funcA", 0, some ["funcA called"]⟩ ["funcA called"] rfl rfl rfl⟩

/-! ## P2: the `funcA does not exist` branch -/

/-- C2, as stated, fails at `needsArgA_withB`: the struct exposes a
zero-argument `funcB` and no `funcA` callable without argument, yet the probe
answers true, the first overload is the one instantiated, and the build is
rejected at `x.funcA()`. -/
theorem C2_incompatible_funcA_rejected :
    needsArgA_withB.resolve "funcB" = some ⟨"funcB", 0, some ["funcB called"]⟩ ∧
    needsArgA_withB.resolve "funcA" = none ∧
    has_funcA.value needsArgA_withB = true ∧
    call needsArgA_withB = .error (.noMatchingCall "funcA") ∧
    ¬ ∃ t, call needsArgA_withB = .ok t := by
  refine ⟨rfl, rfl, rfl, rfl, ?_⟩
  rintro ⟨t, ht⟩
  rw [show call needsArgA_withB = .error (.noMatchingCall "funcA") from rfl] at ht
  cases ht

/-- C2, amended: when `T` exposes a defined zero-argument `funcB`, has no
`funcA` callable without argument, and `funcA` does not name one single member
function of `T` (no member `funcA`, or an overloaded one), `call` builds,
writes the lines of `funcB` and then `funcA does not exist`, and enters
`funcB` only, never `funcA`. -/
theorem C2_call_fallback (T : Struct) (m : Method) (out : List String)
    (hB : T.resolve "funcB" = some m) (hb : m.body = some out)
    (_hA : T.resolve "funcA" = none) (hS : T.addressOf "funcA" = none) :
    ∃ t, call T = .ok t ∧
      t = .invoke "funcB" :: out.map .print ++ [.print "funcA does not exist"] ∧
      stdout t = out ++ ["funcA does not exist"] ∧
      invoked t = ["funcB"] ∧ "funcA" ∉ invoked t := by
  refine ⟨_, call_fallback T m out hB hb hS, rfl, ?_, ?_, ?_⟩
  · simp [stdout, stdout_append, stdout_map_print]
  · simp [invoked, invoked_append, invoked_map_print]
  · simp [invoked, invoked_append, invoked_map_print]

/-- C2 witness: type `B` gives `funcB called`, `funcA does not exist`. -/
theorem C2_call_fallback_witness :
    B.resolve "funcB" = some ⟨"funcB", 0, some ["funcB called"]⟩ ∧
    B.resolve "funcA" = none ∧ B.addressOf "funcA" = none ∧
    ∃ t, call B = .ok t ∧
      t = .invoke "funcB" :: ["funcB called"].map .print ++ [.print "funcA does not exist"] ∧
      stdout t = ["funcB called"] ++ ["funcA does not exist"] ∧
      invoked t = ["funcB"] ∧ "funcA" ∉ invoked t :=
  ⟨rfl, rfl, rfl,
   C2_call_fallback B ⟨"funcB", 0, some ["funcB called"]⟩ ["funcB called"] rfl rfl rfl rfl⟩

/-! ## The program -/

/-- C3: `main` builds, writes exactly the four lines `funcA exists`,
`funcA called`, `funcB called`, `funcA does not exist` in this order, and
exits with status 0. -/
theorem C3_main_output :
    ∃ r, main = .ok r ∧
      stdout r.trace =
        ["funcA exists", "funcA called", "funcB called", "funcA does not exist"] ∧
      r.exitCode = 0 :=
  ⟨_, rfl, rfl, rfl⟩

/-! ## P3: the two overloads exclude each other -/

/-- C4: for every type the condition of the first overload of `call` is
`has_funcA<T>::value`, that of the second is its negation, and exactly one of
the two overloads is viable: never both, never neither. -/
theorem C4_exactly_one_overload (T : Struct) :
    Overload.funcA_exists.enabled T = has_funcA.value T ∧
    Overload.funcA_missing.enabled T = !Overload.funcA_exists.enabled T ∧
    (viableCalls T).length = 1 ∧
    (viableCalls T = [Overload.funcA_exists] ∨ viableCalls T = [Overload.funcA_missing]) ∧
    ¬ (Overload.funcA_exists ∈ viableCalls T ∧ Overload.funcA_missing ∈ viableCalls T) := by
  cases hv : has_funcA.value T
  · simp [viableCalls_of_false T hv, Overload.enabled, hv]
  · simp [viableCalls_of_true T hv, Overload.enabled, hv]

/-! ## P4: rejection -/

/-- C5, as stated, fails at `needsArgA`: the struct exposes neither a `funcA`
callable without argument nor a `funcB`, yet the probe answers true and the
overload selected is the first one, not the second. -/
theorem C5_incompatible_funcA_verdict_true :
    needsArgA.resolve "funcA" = none ∧
    needsArgA.resolve "funcB" = none ∧
    needsArgA.lookup "funcB" = [] ∧
    has_funcA.value needsArgA = true ∧
    viableCalls needsArgA = [Overload.funcA_exists] ∧
    call needsArgA = .error (.noMatchingCall "funcA") :=
  ⟨rfl, rfl, rfl, rfl, rfl, rfl⟩

/-- C5, amended: for every type that exposes neither a `funcA` nor a `funcB`
callable without argument, building `call` is rejected; and when moreover
`funcA` does not name one single member function of the type, the verdict is
false, the second overload is the one selected, and the rejection is that of
its statement `x.funcB()`. -/
theorem C5_call_rejected (T : Struct)
    (hA : T.resolve "funcA" = none) (hB : T.resolve "funcB" = none) :
    (∃ e, call T = .error e) ∧
    (T.addressOf "funcA" = none →
      has_funcA.value T = false ∧
      viableCalls T = [Overload.funcA_missing] ∧
      ∃ e, memberCall T "funcB" = .error e ∧ call T = .error e) := by
  obtain ⟨eA, heA⟩ := memberCall_of_not_resolve T "funcA" hA
  obtain ⟨eB, heB⟩ := memberCall_of_not_resolve T "funcB" hB
  have hfalse : has_funcA.value T = false → call T = .error eB := by
    intro hv
    rw [call_of_false T hv]
    simp only [Overload.body, heB]
  constructor
  · cases hv : has_funcA.value T
    · exact ⟨eB, hfalse hv⟩
    · refine ⟨eA, ?_⟩
      rw [call_of_true T hv]
      simp only [Overload.body, heA]
  · intro hS
    have hv : has_funcA.value T = false := (has_funcA.value_eq_false_iff T).2 hS
    exact ⟨hv, viableCalls_of_false T hv, eB, heB, hfalse hv⟩

/-- C5 witness: type `C`, which has only `funcC`, passed to `call`. -/
theorem C5_call_rejected_witness :
    (C.resolve "funcA" = none ∧ C.resolve "funcB" = none) ∧
    (∃ e, call C = .error e) ∧
    (C.addressOf "funcA" = none →
      has_funcA.value C = false ∧
      viableCalls C = [Overload.funcA_missing] ∧
      ∃ e, memberCall C "funcB" = .error e ∧ call C = .error e) :=
  ⟨⟨rfl, rfl⟩, C5_call_rejected C rfl rfl⟩

/-! ## The probe and signatures -/

/-- C6, as stated, fails at `needsArgA`: its only `funcA` requires an argument,
and the verdict is true. -/
theorem C6_needs_argument_verdict_true :
    needsArgA.lookup "funcA" = [⟨"funcA", 1, some []⟩] ∧
    (∀ m ∈ needsArgA.lookup "funcA", m.arity ≠ 0) ∧
    has_funcA.value needsArgA = true := by
  refine ⟨rfl, ?_, rfl⟩
  intro m hm
  have h : m = ⟨"funcA", 1, some []⟩ := by
    simpa [needsArgA, Struct.lookup, declared] using hm
  subst h
  decide

/-- C6, amended: for a type with a member named `funcA` none of whose
declarations is callable without argument, the verdict is true when `funcA` is
one single, non-overloaded function, and false exactly when `funcA` is
overloaded. -/
theorem C6_verdict_ignores_signature (T : Struct)
    (hne : T.lookup "funcA" ≠ []) (_hsig : ∀ m ∈ T.lookup "funcA", m.arity ≠ 0) :
    ((T.lookup "funcA").length = 1 → has_funcA.value T = true) ∧
    (has_funcA.value T = false ↔ 2 ≤ (T.lookup "funcA").length) := by
  have key := has_funcA.value_eq_true_iff T
  cases hl : T.lookup "funcA" with
  | nil => exact absurd hl hne
  | cons a l =>
    cases l with
    | nil =>
      have hv : has_funcA.value T = true := key.2 ⟨a, hl⟩
      simp [hv]
    | cons b l =>
      have hv : has_funcA.value T = false := by
        cases h : has_funcA.value T
        · rfl
        · obtain ⟨m, hm⟩ := key.1 h
          simp [hl] at hm
      simp [hv]

/-- C6 witness: a single `funcA` that requires an argument. -/
theorem C6_verdict_ignores_signature_witness :
    needsArgA.lookup "funcA" ≠ [] ∧ (∀ m ∈ needsArgA.lookup "funcA", m.arity ≠ 0) ∧
    ((needsArgA.lookup "funcA").length = 1 → has_funcA.value needsArgA = true) ∧
    (has_funcA.value needsArgA = false ↔ 2 ≤ (needsArgA.lookup "funcA").length) :=
  ⟨by decide, by decide, C6_verdict_ignores_signature needsArgA (by decide) (by decide)⟩

/-! ## The probe and inheritance -/

/-- C7: the code breaks the claim at `derivedFromOverloaded`.  The struct
declares no `funcA` itself and inherits from its base a public zero-argument
`funcA` (the call `x.funcA()` resolves to it), so the verdict should be true
and `call` should take the `funcA exists` overload; the verdict is false and
the overload selected is the second one. -/
theorem C7_inherited_overloaded_verdict_false :
    declared [⟨"funcC", 0, some ["funcC called"]⟩] "funcA" = [] ∧
    overloadedA.resolve "funcA" = some ⟨"funcA", 0, some ["funcA called"]⟩ ∧
    derivedFromOverloaded.resolve "funcA" = some ⟨"funcA", 0, some ["funcA called"]⟩ ∧
    has_funcA.value derivedFromOverloaded = false ∧
    viableCalls derivedFromOverloaded = [Overload.funcA_missing] :=
  ⟨rfl, rfl, rfl, rfl, rfl⟩

/-- Where a type declares no `funcA` itself and the `funcA` found in its base
is one single function, the verdict is true and `call` takes the
`funcA exists` overload: the probe looks through inheritance. -/
theorem inherited_single_funcA (ms : List Method) (base : Struct) (m : Method)
    (hown : declared ms "funcA" = []) (hbase : base.lookup "funcA" = [m]) :
    has_funcA.value (.derived ms base) = true ∧
    viableCalls (.derived ms base) = [Overload.funcA_exists] ∧
    call (.derived ms base) = Overload.funcA_exists.body (.derived ms base) := by
  have hl : (Struct.derived ms base).lookup "funcA" = [m] := by
    simp only [Struct.lookup, hown, hbase]
  have hv := (has_funcA.value_eq_true_iff (.derived ms base)).2 ⟨m, hl⟩
  exact ⟨hv, viableCalls_of_true _ hv, call_of_true _ hv⟩

/-- An empty struct derived from `A` is detected. -/
theorem inherited_single_funcA_at_A :
    has_funcA.value (.derived [] A) = true ∧
    viableCalls (.derived [] A) = [Overload.funcA_exists] ∧
    call (.derived [] A) = Overload.funcA_exists.body (.derived [] A) :=
  inherited_single_funcA [] A ⟨"funcA", 0, some ["funcA called"]⟩ rfl rfl

/-! ## Tie-break: both `funcA` and `funcB` -/

/-- C8: the code breaks the claim at `overloadedA_withB`.  The struct exposes
a zero-argument `funcA` and a zero-argument `funcB`, so `call` should write
`funcA exists`, `funcA called` and leave `funcB` alone, as for a type with the
same `funcA` and no `funcB`; `call` enters `funcB` and writes
`funcA does not exist`, while for `overloadedA` (the same `funcA`, no `funcB`)
it is rejected. -/
theorem C8_overloaded_funcA_runs_funcB :
    overloadedA_withB.resolve "funcA" = some ⟨"funcA", 0, some ["funcA called"]⟩ ∧
    overloadedA_withB.resolve "funcB" = some ⟨"funcB", 0, some ["funcB called"]⟩ ∧
    overloadedA.lookup "funcA" = overloadedA_withB.lookup "funcA" ∧
    overloadedA.lookup "funcB" = [] ∧
    call overloadedA_withB =
      .ok [.invoke "funcB", .print "funcB called", .print "funcA does not exist"] ∧
    call overloadedA = .error (.noMember "funcB") ∧
    has_funcA.value overloadedA_withB = false ∧
    call overloadedA_withB ≠ call overloadedA := by
  refine ⟨rfl, rfl, rfl, rfl, rfl, rfl, rfl, ?_⟩
  rw [show call overloadedA = .error (.noMember "funcB") from rfl,
    show call overloadedA_withB =
      .ok [.invoke "funcB", .print "funcB called", .print "funcA does not exist"] from rfl]
  intro h
  cases h

/-- Where `funcA` names one single member function of `T`, callable with no
argument and defined, `call` on `T` builds to exactly what it builds to for
every type with the same `funcA`, whatever `funcB` they have: `funcA exists`,
then the lines of `funcA`; `funcA` is the only function entered. -/
theorem tie_break_single_funcA (T T' : Struct) (m : Method) (out : List String)
    (hl : T.lookup "funcA" = [m]) (h0 : m.arity = 0) (hb : m.body = some out)
    (hsame : T'.lookup "funcA" = T.lookup "funcA") :
    call T = call T' ∧
    ∃ t, call T = .ok t ∧ stdout t = "funcA exists" :: out ∧
      invoked t = ["funcA"] ∧ "funcB" ∉ invoked t := by
  have ht := call_single_funcA T m out hl h0 hb
  have ht' := call_single_funcA T' m out (hsame.trans hl) h0 hb
  refine ⟨ht.trans ht'.symm, _, ht, ?_, ?_, ?_⟩
  · simp [stdout, stdout_map_print]
  · simp [invoked, invoked_map_print]
  · simp [invoked, invoked_map_print]

/-- The struct `bothAB` builds to what `A` builds to. -/
theorem tie_break_single_funcA_at_bothAB :
    call bothAB = call A ∧
    ∃ t, call bothAB = .ok t ∧ stdout t = "funcA exists" :: ["funcA called"] ∧
      invoked t = ["funcA"] ∧ "funcB" ∉ invoked t :=
  tie_break_single_funcA bothAB A ⟨"funcA", 0, some ["funcA called"]⟩ ["funcA called"]
    rfl rfl rfl rfl

/-! ## P5: the probe and functions without a definition -/

/-- The verdict is the same when every member function of the type is left
without a definition: it depends on the declarations only. -/
theorem has_funcA.value_undefine (T : Struct) :
    has_funcA.value T.undefine = has_funcA.value T := by
  rw [Bool.eq_iff_iff, has_funcA.value_eq_true_iff, has_funcA.value_eq_true_iff,
    lookup_undefine]
  constructor
  · rintro ⟨m, hm⟩
    cases hl : T.lookup "funcA" with
    | nil => simp [hl] at hm
    | cons a l =>
      cases l with
      | nil => exact ⟨a, rfl⟩
      | cons b l => simp [hl] at hm
  · rintro ⟨m, hm⟩
    exact ⟨m.undefine, by simp [hm]⟩

/-- Whatever `call` builds to is the announcement and the run of the selected
member function, which is defined and writes exactly its own lines. -/
theorem call_ok_trace (T : Struct) (t : List Event) (ht : call T = .ok t) :
    (∃ (m : Method) (out : List String),
      has_funcA.value T = true ∧ T.resolve "funcA" = some m ∧ m.body = some out ∧
      t = .print "funcA exists" :: .invoke "funcA" :: out.map .print) ∨
    (∃ (m : Method) (out : List String),
      has_funcA.value T = false ∧ T.resolve "funcB" = some m ∧ m.body = some out ∧
      t = .invoke "funcB" :: out.map .print ++ [.print "funcA does not exist"]) := by
  cases hv : has_funcA.value T
  · right
    rw [call_of_false T hv] at ht
    simp only [Overload.body] at ht
    cases hm : memberCall T "funcB" with
    | error e => simp [hm] at ht
    | ok s =>
      obtain ⟨m, out, hr, hb, hs⟩ := memberCall_ok T "funcB" s hm
      simp only [hm, Except.ok.injEq] at ht
      exact ⟨m, out, rfl, hr, hb, by rw [← ht, hs]⟩
  · left
    rw [call_of_true T hv] at ht
    simp only [Overload.body] at ht
    cases hm : memberCall T "funcA" with
    | error e => simp [hm] at ht
    | ok s =>
      obtain ⟨m, out, hr, hb, hs⟩ := memberCall_ok T "funcA" s hm
      simp only [hm, Except.ok.injEq] at ht
      exact ⟨m, out, rfl, hr, hb, by rw [← ht, hs]⟩

/-- C9: the code breaks the claim at `undefinedOverloadedA`.  Every `funcA` of
the struct is declared and never defined, so the verdict should be true, as
it is for `undefinedA` with its single undefined `funcA`; for the overloaded
one the verdict is false, the same answer as for `B`, which has no `funcA`. -/
theorem C9_undefined_overloaded_verdict_false :
    undefinedOverloadedA.lookup "funcA" = [⟨"funcA", 0, none⟩, ⟨"funcA", 1, none⟩] ∧
    undefinedOverloadedA.resolve "funcA" = some ⟨"funcA", 0, none⟩ ∧
    has_funcA.value undefinedOverloadedA = false ∧
    has_funcA.value undefinedA = true ∧
    B.lookup "funcA" = [] ∧ has_funcA.value B = false :=
  ⟨rfl, rfl, rfl, rfl, rfl, rfl⟩

/-! ## Control flow of `main` -/

/-- C10, as stated, fails: `main` hands only `a` and `b` to `call`, two
invocations and not three; `c` is never passed to it. -/
theorem C10_two_invocations :
    dispatched mainBody = ["a", "b"] ∧
    instantiated [] mainBody = [some A, some B] ∧
    (instantiated [] mainBody).length ≠ 3 ∧
    "c" ∉ dispatched mainBody ∧ some C ∉ instantiated [] mainBody := by
  refine ⟨rfl, rfl, by decide, by decide, by decide⟩

/-- C10, amended: `main` constructs three values `a`, `b`, `c` of the types
`A`, `B`, `C` in this order and invokes `call` on `a` and then on `b`, two
sequential invocations; with a third invocation `call(c)` the program would
not build. -/
theorem C10_main_control_flow :
    constructed mainBody = [A, B, C] ∧
    dispatched mainBody = ["a", "b"] ∧
    instantiated [] mainBody = [some A, some B] ∧
    build [] mainBody =
      .ok ([.print "funcA exists", .invoke "funcA", .print "funcA called"] ++
           [.invoke "funcB", .print "funcB called", .print "funcA does not exist"]) ∧
    build [] (mainBody ++ [.callOn "c"]) = .error (.noMember "funcB") :=
  ⟨rfl, rfl, rfl, rfl, rfl⟩

end Sfinae
